import Mathlib

/-!
Verification development for the time-series-prediction-subnet validator.

The two source files under review are `neurons/validator.py`
(`run_time_series_validation` and the `__main__` scheduler loop) and
`data_generator/financial_markets_generator/bybit_data.py`
(`ByBitData.get_data`).  Everything those files do that the claims touch is
embedded below as executable Lean definitions: external effects (HTTP
fetches, RPC queries, durable-store writes) appear as explicit inputs
describing their outcome, Python exceptions appear as an explicit exception
class threaded through `Except`/`Outcome`, and the durable state (the CMW
ledger and the persisted prediction files) is threaded explicitly.

Helpers of the repository that live outside the two source files
(`Scoring`, `Scaling`, the `cmw_objects`, `ValiUtils`) are modelled from the
specification; each such definition carries a doc comment starting
`Modelled from the spec:`.
-/

/-! ## Python exception classes and outcome of one workflow branch -/

/-- Classes of Python exceptions relevant to the validator's handlers:
`runtime` (`RuntimeError`, the only class the outer handlers catch),
`connection` (`ConnectionError`, raised by the market-data fetcher when its
retries are exhausted), `keyError` (raised by a failing `dict[...]` lookup)
and `attr` (`AttributeError`, raised by attribute access on `None`). -/
inductive PyExn
  | runtime
  | connection
  | keyError
  | attr
deriving DecidableEq

/-- Outcome of processing one request inside `run_time_series_validation`:
the branch finished normally (`ok`), a `RuntimeError` was caught by the
branch's `except RuntimeError` handler (`caughtRuntime`), or an exception
escaped the branch and propagates out of the whole function
(`propagated`). -/
inductive Outcome
  | ok
  | caughtRuntime
  | propagated (e : PyExn)
deriving DecidableEq

/-- Effect of an exception raised inside a `try ... except RuntimeError`
block: a `RuntimeError` is caught, anything else propagates. -/
def handleE (e : PyExn) : Outcome :=
  if e = PyExn.runtime then Outcome.caughtRuntime else Outcome.propagated e

/-! ## The CMW ledger

`vali_objects/cmw` is not under `src/`; the ledger shape and its three
operations are modelled from the spec (section 3 and 4.6): a nested
Client -> Stream -> Miner table where each miner holds an ordered score
history, a win count and a win-value total. -/

/-- Modelled from the spec: a `CMWMiner` ledger entry (not under `src/`),
`{score_history : ordered sequence of scores, win_count, win_value_total}`;
the validator constructs new entries as `CMWMiner(miner_uid, 0, 0, [])`. -/
structure CMWMiner where
  miner_uid : String
  win_count : Nat
  win_value_total : Int
  scores : List Int
deriving DecidableEq

/-- Modelled from the spec: a `CMWStreamType` ledger node (not under
`src/`), keyed by `stream_id`, holding the miners graded on the stream. -/
structure CMWStreamType where
  stream_id : Int
  topic_id : Int
  miners : List CMWMiner
deriving DecidableEq

/-- Modelled from the spec: a `CMWClient` ledger node (not under `src/`),
keyed by `client_uuid`, holding the client's streams. -/
structure CMWClient where
  client_uuid : String
  streams : List CMWStreamType
deriving DecidableEq

/-- Modelled from the spec: the whole CMW ledger (the `vali_records`
blob), a list of clients. -/
structure CMW where
  clients : List CMWClient
deriving DecidableEq

/-- Modelled from the spec: `CMW.get_client` — look a client up by uuid. -/
def getClient (cmw : CMW) (clientUuid : String) : Option CMWClient :=
  cmw.clients.find? (fun c => c.client_uuid == clientUuid)

/-- Modelled from the spec: `CMWClient.get_stream` — look a stream up by
its stream id. -/
def getStream (c : CMWClient) (streamId : Int) : Option CMWStreamType :=
  c.streams.find? (fun st => st.stream_id == streamId)

/-- Modelled from the spec: the `get_miner` / `add_miner` / `add_score`
sequence of the grading loop — if the miner is absent it is appended as
`CMWMiner(uid, 0, 0, [])`, then the scaled score is appended to its score
history. -/
def streamAddScore (st : CMWStreamType) (uid : String) (sc : Int) : CMWStreamType :=
  match st.miners.find? (fun m => m.miner_uid == uid) with
  | none => { st with miners := st.miners ++ [⟨uid, 0, 0, [sc]⟩] }
  | some _ =>
      { st with
        miners := st.miners.map (fun m =>
          if m.miner_uid == uid then { m with scores := m.scores ++ [sc] } else m) }

/-- Modelled from the spec: `CMWMiner.add_win_value` followed by
`CMWMiner.add_win` — add the weight to the miner's win-value total and
increment its win count. -/
def streamAddWin (st : CMWStreamType) (uid : String) (w : Int) : CMWStreamType :=
  { st with
    miners := st.miners.map (fun m =>
      if m.miner_uid == uid then
        { m with win_count := m.win_count + 1, win_value_total := m.win_value_total + w }
      else m) }

/-- Write a mutated stream back into the ledger (the effect on the whole
`vm` object of having mutated the stream in place before
`set_vali_memory_and_bkp` persists `vm`). -/
def setStream (cmw : CMW) (clientUuid : String) (streamId : Int)
    (st2 : CMWStreamType) : CMW :=
  { clients := cmw.clients.map (fun cl =>
      if cl.client_uuid == clientUuid then
        { cl with streams := cl.streams.map (fun st =>
            if st.stream_id == streamId then st2 else st) }
      else cl) }

/-- Modelled from the spec: the ClientRequest branch's registration block —
lazily create the client, and the stream under it, on first reference. -/
def registerClientStream (cmw : CMW) (clientUuid : String) (streamId : Int)
    (topicId : Int) : CMW :=
  match getClient cmw clientUuid with
  | none =>
      { clients := cmw.clients ++
          [{ client_uuid := clientUuid,
             streams := [{ stream_id := streamId, topic_id := topicId, miners := [] }] }] }
  | some c =>
      match getStream c streamId with
      | none =>
          { clients := cmw.clients.map (fun cl =>
              if cl.client_uuid == clientUuid then
                { cl with streams := cl.streams ++
                    [{ stream_id := streamId, topic_id := topicId, miners := [] }] }
              else cl) }
      | some _ => cmw

/-! ## Scaling and scoring helpers -/

/-- Minimum of a list of integers (0 on the empty list). -/
def listMinI : List Int → Int
  | [] => 0
  | x :: xs => xs.foldl min x

/-- Maximum of a list of integers (0 on the empty list). -/
def listMaxI : List Int → Int
  | [] => 0
  | x :: xs => xs.foldl max x

/-- Modelled from the spec: `Scaling.scale_values` (section 4.3, not under
`src/`) — linearly map every sample with externally supplied bounds via
`(value - min) / (max - min)`, returning the bounds and the scaled
sequence. -/
def scale_values (values : List Int) (vmin vmax : Int) : Int × Int × List Rat :=
  (vmin, vmax,
    values.map (fun v => ((v - vmin : Int) : Rat) / ((vmax - vmin : Int) : Rat)))

/-- Modelled from the spec: `Scaling.scale_data_structure` (section 4.3,
not under `src/`) — per feature column compute min, max and precision
metadata, and scale the column.  The decimal-places metadata is carried
opaquely (no claim inspects it); it is modelled as 0 per column. -/
def scale_data_structure (ds : List (List Int)) :
    List Int × List Int × List Nat × List (List Rat) :=
  (ds.map listMinI, ds.map listMaxI, ds.map (fun _ => 0),
    ds.map (fun col => (scale_values col (listMinI col) (listMaxI col)).2.2))

/-- Modelled from the spec: `Scoring.score_response` (section 4.5, not
under `src/`) — a raw distance between the prediction sequence and the
ground-truth sequence over their matched length, smaller meaning closer;
modelled as the sum of squared differences. -/
def score_response (preds actual : List Int) : Int :=
  ((preds.zip actual).map (fun p => (p.1 - p.2) * (p.1 - p.2))).sum

/-- The grading loop body of the PredictionRequest branch: one raw score
per miner, each computed against the same ground-truth column. -/
def gradeScores (preds : List (String × List Int)) (groundTruth : List Int) :
    List (String × Int) :=
  preds.map (fun p => (p.1, score_response p.2 groundTruth))

/-- Modelled from the spec: `Scoring.simple_scale_scores` (section 4.5,
not under `src/`) — rescale the raw distance scores across all miners into
a bounded comparable range ("min-max or equivalent"), a smaller distance
yielding a higher scaled score; the key set and its insertion order are
preserved.  Modelled over the integers as the order-reversing affine map
`hi - raw` into `[0, hi - lo]`. -/
def simple_scale_scores (scores : List (String × Int)) : List (String × Int) :=
  let hi := listMaxI (scores.map (fun p => p.2))
  scores.map (fun p => (p.1, hi - p.2))

/-- Stable insertion (descending by score) used by `sortDesc`. -/
def insertDesc (x : String × Int) : List (String × Int) → List (String × Int)
  | [] => [x]
  | y :: ys => if y.2 < x.2 then x :: y :: ys else y :: insertDesc x ys

/-- `sorted(..., key=lambda x: x[1], reverse=True)`: stable descending
sort by the score component. -/
def sortDesc (l : List (String × Int)) : List (String × Int) :=
  l.foldl (fun acc x => insertDesc x acc) []

/-- Modelled from the spec: `Scoring.weigh_miner_scores` (section 4.5, not
under `src/`) — convert the ranked top-10 list into per-miner weights
forming a bounded rank-monotone distribution, preserving the miners and
their order; modelled as the rank weights `10 - rank`, positive on every
rank of a top-10 list. -/
def weigh_miner_scores (l : List (String × Int)) : List (String × Int) :=
  (l.zip (List.range l.length)).map
    (fun p => (p.1.1, (10 : Int) - (p.2 : Int)))

/-- Association-list lookup modelling a Python `dict[key]` access (the
`None` result models the `KeyError` path). -/
def alistLookup (l : List (String × Int)) (k : String) : Option Int :=
  (l.find? (fun p => p.1 == k)).map (fun p => p.2)

/-- Python's opaque string hash `hash(str(stream_type) + hotkey)`; a
deterministic stand-in, no claim depends on its value. -/
def pyHash (s : String) : Int :=
  (s.length : Int)

/-! ## ByBitData.get_data -/

/-- Return behaviour of `ByBitData.get_data` towards its caller: either
the function returns a Python value — `none` models the implicit `None`
return that falls off the `except` block — or it raises `ConnectionError`. -/
inductive FetchResult
  | returned (rows : Option (List (List Int)))
  | connectionError
deriving DecidableEq

/-- Embeds `ByBitData.get_data`.  `attempt n` is the outcome of the HTTP
request made with retry counter `n` (`none`: a non-200 status or parse
failure, raised and caught by the `except`; `some rows`: a 200 response).
Faithful to the source, the recursive retry call inside the `except` block
is performed but its value is not returned: when the retry eventually
succeeds, control falls off the `except` block and the function returns
`None`; an exception raised by the retry propagates. -/
def get_data (attempt : Nat → Option (List (List Int))) (retries : Nat) :
    FetchResult :=
  match attempt retries with
  | some rows => FetchResult.returned (some rows)
  | none =>
      if _h : retries < 5 then
        match get_data attempt (retries + 1) with
        | FetchResult.connectionError => FetchResult.connectionError
        | FetchResult.returned _ => FetchResult.returned none
      else
        FetchResult.connectionError
termination_by 6 - retries
decreasing_by omega

/-! ## Validator data model

The request dataclasses, the protocol messages and the durable validator
state, as used by `run_time_series_validation`. -/

/-- A persisted prediction record (`PredictionDataFile`), with the fields
the ClientRequest branch stores (validator.py lines 278-292). -/
structure PredictionDataFile where
  client_uuid : String
  stream_type : String
  stream_id : Int
  topic_id : Int
  request_uuid : String
  miner_uid : String
  start : Int
  endt : Int
  vmins : List Int
  vmaxs : List Int
  decimal_places : List Nat
  predictions : List Int
deriving DecidableEq

/-- Durable validator state threaded through a tick: the CMW ledger blob
and the persisted prediction files (name plus content). -/
structure ValiState where
  cmw : CMW
  predFiles : List (String × PredictionDataFile)
deriving DecidableEq

/-- `TrainingRequest` dataclass fields. -/
structure TrainingRequestData where
  stream_type : String
  topic_id : Int
  feature_ids : List Int
  schema_id : Int
  prediction_size : Nat
deriving DecidableEq

/-- `ClientRequest` dataclass fields. -/
structure ClientRequestData where
  client_uuid : Option String
  stream_type : String
  topic_id : Int
  feature_ids : List Int
  schema_id : Int
  prediction_size : Nat
deriving DecidableEq

/-- `PredictionRequest` dataclass fields: the representative persisted
record `df`, the per-miner prediction payloads, and the backing file
names. -/
structure PredictionRequestData where
  df : PredictionDataFile
  predictions : List (String × List Int)
  files : List String
deriving DecidableEq

/-- `TrainingForward` protocol message. -/
structure TrainingForwardMsg where
  request_uuid : String
  stream_id : Int
  samples : List (List Rat)
  topic_id : Int
  feature_ids : List Int
  schema_id : Int
  prediction_size : Nat
deriving DecidableEq

/-- `TrainingBackward` protocol message. -/
structure TrainingBackwardMsg where
  request_uuid : String
  stream_id : Int
  samples : List Rat
  topic_id : Int
deriving DecidableEq

/-- `LiveForward` protocol message. -/
structure LiveForwardMsg where
  request_uuid : String
  stream_id : Int
  samples : List (List Rat)
  topic_id : Int
  feature_ids : List Int
  schema_id : Int
  prediction_size : Nat
deriving DecidableEq

/-- `LiveBackward` protocol message. -/
structure LiveBackwardMsg where
  request_uuid : String
  stream_id : Int
  samples : List Rat
  topic_id : Int
deriving DecidableEq

/-! ## Environment of one branch

Each external effect of a branch is an explicit input describing its
outcome for the run under consideration. -/

/-- External outcomes seen by the TrainingRequest branch: the training
data fetch (outside any `try`), the forward query, the results fetch and
the backward query (all three inside the `try ... except RuntimeError`). -/
structure TrainingEnv where
  fetched : Except PyExn (List (List Int))
  queryFwdExn : Option PyExn
  fetchedResults : Except PyExn (List (List Int))
  queryBwdExn : Option PyExn

/-- External outcomes seen by the ClientRequest branch: the data fetch
(outside any `try`), whether the registration block's ledger persist
succeeds (its `except Exception` swallows any failure), the live query,
the per-axon responses, the axon hotkeys, the generated output uuid and
the window-start timestamp. -/
structure ClientEnv where
  fetched : Except PyExn (List (List Int))
  registerOk : Bool
  queryExn : Option PyExn
  responses : List (Option (List Int))
  axonHotkeys : List String
  outputUuid : String
  endMillis : Int

/-- External outcomes seen by the PredictionRequest branch: the
ground-truth fetch and the backward query (inside the outer `try ...
except RuntimeError`), whether `set_vali_memory_and_bkp` succeeds (inside
the inner `except Exception`), and the `set_weights` call. -/
structure PredEnv where
  fetched : Except PyExn (List (List Int))
  queryExn : Option PyExn
  persistOk : Bool
  setWeightsExn : Option PyExn

/-! ## The three branches of run_time_series_validation -/

/-- Result of the TrainingRequest branch. -/
structure TrainResult where
  state : ValiState
  forwardMsg : Option TrainingForwardMsg
  backwardMsg : Option TrainingBackwardMsg
  outcome : Outcome
deriving DecidableEq

/-- Embeds the `TrainingRequest` branch (validator.py lines 121-199):
fetch and scale the training window, send `TrainingForward`, fetch the
results window, scale it with the training bounds and send
`TrainingBackward`.  The first fetch is outside the `try`, so any failure
there propagates; inside the `try`, only `RuntimeError` is caught.  The
branch touches neither the ledger nor the prediction files. -/
def processTraining (hotkey : String) (s : ValiState) (uuid : String)
    (d : TrainingRequestData) (env : TrainingEnv) : TrainResult :=
  let streamId := pyHash (d.stream_type ++ hotkey)
  match env.fetched with
  | Except.error e =>
      { state := s, forwardMsg := none, backwardMsg := none,
        outcome := Outcome.propagated e }
  | Except.ok ds =>
      let sc := scale_data_structure ds
      let fwd : TrainingForwardMsg :=
        { request_uuid := uuid, stream_id := streamId, samples := sc.2.2.2,
          topic_id := d.topic_id, feature_ids := d.feature_ids,
          schema_id := d.schema_id, prediction_size := d.prediction_size }
      match env.queryFwdExn with
      | some e =>
          { state := s, forwardMsg := some fwd, backwardMsg := none,
            outcome := handleE e }
      | none =>
          match env.fetchedResults with
          | Except.error e =>
              { state := s, forwardMsg := some fwd, backwardMsg := none,
                outcome := handleE e }
          | Except.ok rds =>
              let r := scale_values (rds.headD []) (sc.1.headD 0) (sc.2.1.headD 0)
              let bwd : TrainingBackwardMsg :=
                { request_uuid := uuid, stream_id := streamId,
                  samples := r.2.2, topic_id := d.topic_id }
              match env.queryBwdExn with
              | some e =>
                  { state := s, forwardMsg := some fwd, backwardMsg := some bwd,
                    outcome := handleE e }
              | none =>
                  { state := s, forwardMsg := some fwd, backwardMsg := some bwd,
                    outcome := Outcome.ok }

/-- Validity test of a collected response (validator.py lines 273-275):
present, and of the declared prediction size. -/
def isValidResponse (r : Option (List Int)) (psize : Nat) : Bool :=
  match r with
  | none => false
  | some l => l.length == psize

/-- Embeds the response-collection loop of the ClientRequest branch
(validator.py lines 273-293): enumerate the responses, keep exactly those
that are present with the declared length, and build one persisted record
per kept response. -/
def processResponses (pairs : List (Option (List Int) × String)) (psize : Nat)
    (mk : String → List Int → PredictionDataFile) : List PredictionDataFile :=
  pairs.filterMap (fun p =>
    match p.1 with
    | none => none
    | some preds => if preds.length = psize then some (mk p.2 preds) else none)

/-- `ValiConfig.STANDARD_TF` is not under `src/`; its exact value is
immaterial to every claim. -/
def STANDARD_TF : Nat := 5

/-- `TimeUtil.minute_in_millis`. -/
def minuteInMillis (n : Nat) : Int :=
  (n : Int) * 60000

/-- Result of the ClientRequest branch. -/
structure ClientResult where
  state : ValiState
  forwardMsg : Option LiveForwardMsg
  savedFiles : List (String × PredictionDataFile)
  outcome : Outcome
deriving DecidableEq

/-- Embeds the `ClientRequest` branch (validator.py lines 201-299): fetch
and scale the live window, register the client/stream in the ledger (its
own `except Exception` swallows any failure there), send `LiveForward`,
and persist one `PredictionDataFile` per valid response.  The fetch is
outside both `try` blocks, so any failure there propagates; the query is
guarded by `except RuntimeError`. -/
def processClient (hotkey : String) (s : ValiState) (uuid : String)
    (d : ClientRequestData) (env : ClientEnv) : ClientResult :=
  let streamId := pyHash (d.stream_type ++ hotkey)
  let clientUuid := d.client_uuid.getD hotkey
  match env.fetched with
  | Except.error e =>
      { state := s, forwardMsg := none, savedFiles := [],
        outcome := Outcome.propagated e }
  | Except.ok ds =>
      let sc := scale_data_structure ds
      let fwd : LiveForwardMsg :=
        { request_uuid := uuid, stream_id := streamId, samples := sc.2.2.2,
          topic_id := d.topic_id, feature_ids := d.feature_ids,
          schema_id := d.schema_id, prediction_size := d.prediction_size }
      let cmw1 :=
        if env.registerOk then registerClientStream s.cmw clientUuid streamId d.topic_id
        else s.cmw
      match env.queryExn with
      | some e =>
          { state := { s with cmw := cmw1 }, forwardMsg := some fwd,
            savedFiles := [], outcome := handleE e }
      | none =>
          let pdfs := processResponses (env.responses.zip env.axonHotkeys)
            d.prediction_size
            (fun hk preds =>
              { client_uuid := clientUuid, stream_type := d.stream_type,
                stream_id := streamId, topic_id := d.topic_id,
                request_uuid := uuid, miner_uid := hk,
                start := env.endMillis,
                endt := env.endMillis + minuteInMillis (d.prediction_size * STANDARD_TF),
                vmins := sc.1, vmaxs := sc.2.1, decimal_places := sc.2.2.1,
                predictions := preds })
          let saved := pdfs.map (fun p => (env.outputUuid, p))
          { state := { cmw := cmw1, predFiles := s.predFiles ++ saved },
            forwardMsg := some fwd, savedFiles := saved, outcome := Outcome.ok }

/-! ## PredictionRequest branch -/

/-- The grading loop of the PredictionRequest branch (validator.py lines
366-378), inside the inner `try`.  For each scored miner in dict order:
lazily create its ledger entry and append the scaled score, then look its
weight up in the weighed-winning dict — a plain `dict[...]` access whose
failure is a `KeyError` — and on a nonzero weight add the win value and
the win.  The error result models the raised exception (the in-memory
mutations made so far are then never persisted). -/
def cmwLoopGo (wdict : List (String × Int)) :
    List (String × Int) → CMWStreamType → Except PyExn CMWStreamType
  | [], st => Except.ok st
  | (uid, sc) :: rest, st =>
      let st1 := streamAddScore st uid sc
      match alistLookup wdict uid with
      | none => Except.error PyExn.keyError
      | some w =>
          let st2 := if w ≠ 0 then streamAddWin st1 uid w else st1
          cmwLoopGo wdict rest st2

/-- Result of the PredictionRequest branch. -/
structure PredResult where
  state : ValiState
  backward : Option LiveBackwardMsg
  weightsSet : Option (List (String × Int))
  outcome : Outcome
deriving DecidableEq

/-- Embeds the `PredictionRequest` branch (validator.py lines 301-409):
fetch the ground truth for the elapsed window, rescale it with the bounds
stored in the record and send it back via `LiveBackward` (carrying the
tick's freshly generated `request_uuid`), score each miner's stored
predictions against the raw fetched first column, min-max scale the
scores, take the weighed top 10, update the ledger inside an inner
`except Exception` (any failure there — missing stream, `KeyError` on the
weight dict, or a failing persist — is swallowed and leaves the durable
ledger unchanged), call `set_weights`, and, when no exception escaped the
outer `try`, delete the backing files.  The outer handler catches only
`RuntimeError`; anything else propagates. -/
def processPrediction (hotkey : String) (s : ValiState) (uuid : String)
    (req : PredictionRequestData) (env : PredEnv) : PredResult :=
  let df := req.df
  match env.fetched with
  | Except.error e =>
      { state := s, backward := none, weightsSet := none, outcome := handleE e }
  | Except.ok ds =>
      let ds0 := ds.headD []
      let scaledResults := scale_values ds0 (df.vmins.headD 0) (df.vmaxs.headD 0)
      let msg : LiveBackwardMsg :=
        { request_uuid := uuid,
          stream_id := pyHash (df.stream_type ++ hotkey),
          samples := scaledResults.2.2,
          topic_id := df.topic_id }
      match env.queryExn with
      | some e =>
          { state := s, backward := some msg, weightsSet := none, outcome := handleE e }
      | none =>
          let scores := gradeScores req.predictions ds0
          let scaled_scores := simple_scale_scores scores
          match getClient s.cmw df.client_uuid with
          | none =>
              { state := s, backward := some msg, weightsSet := none,
                outcome := Outcome.propagated PyExn.attr }
          | some client =>
              let streamOpt := getStream client df.stream_id
              let sorted_scores := sortDesc scaled_scores
              let winning_scores := sorted_scores.take 10
              let weighed_scores := weigh_miner_scores winning_scores
              let weighed_winning := weighed_scores.take 10
              let cmw2 :=
                match streamOpt with
                | none => s.cmw
                | some st =>
                    match cmwLoopGo weighed_winning scaled_scores st with
                    | Except.error _ => s.cmw
                    | Except.ok st2 =>
                        if env.persistOk then
                          setStream s.cmw df.client_uuid df.stream_id st2
                        else s.cmw
              match env.setWeightsExn with
              | some e =>
                  { state := { s with cmw := cmw2 }, backward := some msg,
                    weightsSet := none, outcome := handleE e }
              | none =>
                  { state :=
                      { cmw := cmw2,
                        predFiles := s.predFiles.filter
                          (fun f => !(req.files.contains f.1)) },
                    backward := some msg,
                    weightsSet := some weighed_winning,
                    outcome := Outcome.ok }

/-! ## The request loop and the scheduler -/

/-- One scheduled request together with the external outcomes its
processing will observe and the fresh `request_uuid` generated for it at
the top of the loop (validator.py line 119). -/
inductive ValiItem
  | training (d : TrainingRequestData) (env : TrainingEnv) (uuid : String)
  | client (d : ClientRequestData) (env : ClientEnv) (uuid : String)
  | prediction (d : PredictionRequestData) (env : PredEnv) (uuid : String)

/-- Dispatch of one loop iteration of `run_time_series_validation` on the
request's dataclass type. -/
def processItem (hotkey : String) (s : ValiState) : ValiItem → ValiState × Outcome
  | ValiItem.training d env uuid =>
      let r := processTraining hotkey s uuid d env
      (r.state, r.outcome)
  | ValiItem.client d env uuid =>
      let r := processClient hotkey s uuid d env
      (r.state, r.outcome)
  | ValiItem.prediction d env uuid =>
      let r := processPrediction hotkey s uuid d env
      (r.state, r.outcome)

/-- Embeds the `for vali_request in vali_requests` loop of
`run_time_series_validation`: requests run sequentially; an exception
that escapes one iteration propagates out of the function, so the
remaining requests of the batch are not executed.  Returns the final
state and the outcomes of the iterations that actually ran. -/
def run_time_series_validation (hotkey : String) (s : ValiState) :
    List ValiItem → ValiState × List Outcome
  | [] => (s, [])
  | item :: rest =>
      let r := processItem hotkey s item
      match r.2 with
      | Outcome.propagated e => (r.1, [Outcome.propagated e])
      | o =>
          let res := run_time_series_validation hotkey r.1 rest
          (res.1, o :: res.2)

/-- A persisted prediction file as the scheduler sees it: its name and the
end of its target window. -/
structure PendingFile where
  name : String
  windowEnd : Int
deriving DecidableEq

/-- A request emitted by the scheduler tick. -/
inductive SchedRequest
  | client
  | prediction (f : PendingFile)
  | training
deriving DecidableEq

/-- Modelled from the spec: `ValiUtils.get_predictions_to_complete` is not
under `src/`; per section 4.1 the scheduler emits one PredictionRequest
per persisted record whose target window has elapsed. -/
def getPredictionsToComplete (now : Int) (pending : List PendingFile) :
    List PendingFile :=
  pending.filter (fun f => decide (f.windowEnd ≤ now))

/-- Embeds the `__main__` scheduler tick (validator.py lines 413-433): the
body runs when the current second is divisible by 5; a ClientRequest is
generated only when the second is also divisible by 59 and the predictions
directory is empty; every window-elapsed record contributes a
PredictionRequest; a TrainingRequest is appended only when nothing else was
scheduled and the 0-10 dice roll came up 1.  `pending` is the list of
persisted prediction files (the contents of the predictions directory). -/
def schedulerTick (sec : Nat) (now : Int) (pending : List PendingFile)
    (dice : Nat) : List SchedRequest :=
  if sec % 5 = 0 then
    let base : List SchedRequest :=
      if sec % 59 = 0 ∧ pending.length = 0 then [SchedRequest.client] else []
    let withPreds :=
      base ++ (getPredictionsToComplete now pending).map SchedRequest.prediction
    if withPreds.length = 0 ∧ dice = 1 then withPreds ++ [SchedRequest.training]
    else withPreds
  else []

/-! ## Concrete fixtures used by the counterexamples and witnesses -/

/-- Ground-truth data structure fetched during grading in the concrete
runs: a single feature column `[0]`. -/
def dsOkFixture : List (List Int) := [[0]]

/-- A persisted prediction record as produced by an earlier ClientRequest
tick, carrying the forward phase's `request_uuid`. -/
def dfFixture : PredictionDataFile :=
  { client_uuid := "c", stream_type := "BTCUSD", stream_id := 77, topic_id := 1,
    request_uuid := "fwd-uuid", miner_uid := "m00", start := 0, endt := 100,
    vmins := [0], vmaxs := [10], decimal_places := [0], predictions := [0] }

/-- Eleven miners' stored predictions against ground truth `[0]`: miner
`mII` predicted `[II]`, so the raw distances `0, 1, 4, ..., 100` are
pairwise distinct and already in descending scaled order. -/
def elevenPreds : List (String × List Int) :=
  [("m00", [0]), ("m01", [1]), ("m02", [2]), ("m03", [3]), ("m04", [4]),
   ("m05", [5]), ("m06", [6]), ("m07", [7]), ("m08", [8]), ("m09", [9]),
   ("m10", [10])]

/-- A grading cycle with eleven scored miners. -/
def req11 : PredictionRequestData :=
  { df := dfFixture, predictions := elevenPreds, files := ["f1"] }

/-- A grading cycle with two scored miners. -/
def req2 : PredictionRequestData :=
  { df := dfFixture, predictions := [("m00", [0]), ("m01", [1])], files := ["f1"] }

/-- A durable ledger that already contains the record's client and stream
(as the ClientRequest tick registered them) with no miners yet. -/
def ledger0 : CMW :=
  { clients := [{ client_uuid := "c",
                  streams := [{ stream_id := 77, topic_id := 1, miners := [] }] }] }

/-- Durable state before the grading tick: the ledger plus the backing
prediction file. -/
def state0 : ValiState := { cmw := ledger0, predFiles := [("f1", dfFixture)] }

/-- Externals for a fully successful grading run. -/
def envOk : PredEnv :=
  { fetched := Except.ok dsOkFixture, queryExn := none, persistOk := true,
    setWeightsExn := none }

/-- Externals for a grading run whose ledger persist
(`set_vali_memory_and_bkp`) fails. -/
def envPersistFail : PredEnv :=
  { fetched := Except.ok dsOkFixture, queryExn := none, persistOk := false,
    setWeightsExn := none }

/-- Externals for a grading run whose market-data fetch exhausts its
retries and raises `ConnectionError`. -/
def envFetchFatal : PredEnv :=
  { fetched := Except.error PyExn.connection, queryExn := none, persistOk := true,
    setWeightsExn := none }

/-- A training request. -/
def trainD : TrainingRequestData :=
  { stream_type := "BTCUSD", topic_id := 1, feature_ids := [1, 2, 3, 5],
    schema_id := 1, prediction_size := 100 }

/-- Externals for a fully successful training run. -/
def trainEnvOk : TrainingEnv :=
  { fetched := Except.ok [[0]], queryFwdExn := none,
    fetchedResults := Except.ok [[1]], queryBwdExn := none }

/-- A batch item whose grading workflow hits a fatal fetch failure. -/
def itemFatal : ValiItem := ValiItem.prediction req2 envFetchFatal "u1"

/-- A batch item whose training workflow would succeed. -/
def itemTrain : ValiItem := ValiItem.training trainD trainEnvOk "u2"

/-- A pending prediction file whose target window has elapsed. -/
def pendingFileW : PendingFile := { name := "p1", windowEnd := 50 }

/-- HTTP outcomes for `get_data` where the first four attempts fail
transiently and the fifth succeeds with rows `[[42]]`. -/
def attemptsFailFourThenSucceed : Nat → Option (List (List Int)) :=
  fun n => if n < 4 then none else some [[42]]

/-- HTTP outcomes for `get_data` where every attempt fails transiently. -/
def attemptsAlwaysFail : Nat → Option (List (List Int)) :=
  fun _ => none

/-- An exception handled by a `try ... except RuntimeError` never yields
the `ok` outcome. -/
theorem handleE_ne_ok (e : PyExn) : handleE e ≠ Outcome.ok := by
  cases e <;> decide

/-! ## Claims -/

/-- C1: the claim says every scored miner has its scaled score appended to
the ledger, in particular when more than 10 miners are scored in the same
cycle.  The code violates this: with eleven scored miners the grading loop
reaches the miner absent from the weighed top-10 dict,
`weighed_winning_scores_dict[miner_uid]` raises `KeyError`, the inner
`except Exception` swallows it, and `set_vali_memory_and_bkp` is skipped —
the durable ledger keeps no score at all for that cycle (first conjunct),
while the branch still finishes `ok` and deletes the files (second
conjunct).  The same pipeline with two scored miners does append the
scores (third conjunct), showing the eleven-miner run is the failure. -/
theorem c1_over_ten_miners_keyerror_code_bug :
    (processPrediction "hk" state0 "bwd-uuid" req11 envOk).state.cmw = state0.cmw
    ∧ (processPrediction "hk" state0 "bwd-uuid" req11 envOk).outcome = Outcome.ok
    ∧ ¬ (processPrediction "hk" state0 "bwd-uuid" req2 envOk).state.cmw = state0.cmw := by
  refine ⟨by decide, by decide, by decide⟩

/-- C2: the claim says that when the first four fetch attempts fail
transiently and the fifth succeeds, the caller receives the fetched data.
The code violates this: the retry call inside the `except` block discards
its own result (the `return` is missing), so the original call returns
`None` (first conjunct) even though the fifth attempt did produce rows
(second conjunct).  The claim's other half — six consecutive failures
raise `ConnectionError` — does hold (third conjunct). -/
theorem c2_retry_result_discarded_code_bug :
    get_data attemptsFailFourThenSucceed 0 = FetchResult.returned none
    ∧ attemptsFailFourThenSucceed 4 = some [[42]]
    ∧ get_data attemptsAlwaysFail 0 = FetchResult.connectionError := by
  refine ⟨?_, by decide, ?_⟩ <;>
    simp [get_data, attemptsFailFourThenSucceed, attemptsAlwaysFail]

/-- C3 counterexample: a grading run whose ledger persist fails.  The
inner `except Exception` swallows the failure — the durable ledger is
unchanged (first conjunct, compare the successful run of the same request
in `c1_over_ten_miners_keyerror_code_bug`, which does change it) — yet the
branch finishes without an escaping exception and the backing files are
deleted anyway (second and third conjuncts), contradicting the claim that
files are deleted only when the full grading-and-ledger-update path
succeeds. -/
theorem c3_ledger_failure_still_deletes_counterexample :
    (processPrediction "hk" state0 "bwd-uuid" req2 envPersistFail).state.cmw = state0.cmw
    ∧ (processPrediction "hk" state0 "bwd-uuid" req2 envPersistFail).state.predFiles = []
    ∧ (processPrediction "hk" state0 "bwd-uuid" req2 envPersistFail).outcome = Outcome.ok := by
  refine ⟨by decide, by decide, by decide⟩

/-- C3 (amended): the backing files of a PredictionRequest are deleted
exactly when no exception escapes the outer `try` of the grading branch;
in particular a failure of the ledger update itself (a failing persist, a
missing stream, or the `KeyError` of the weight-dict lookup) is caught by
the inner handler and does not prevent deletion, while a caught
`RuntimeError` or a propagating exception leaves the files on disk. -/
theorem c3_files_removed_iff_outer_try_ok (hotkey : String) (s : ValiState)
    (uuid : String) (req : PredictionRequestData) (env : PredEnv) :
    (processPrediction hotkey s uuid req env).state.predFiles
      = if (processPrediction hotkey s uuid req env).outcome = Outcome.ok
        then s.predFiles.filter (fun f => !(req.files.contains f.1))
        else s.predFiles := by
  obtain ⟨f, q, p, w⟩ := env
  cases f with
  | error e => cases e <;> simp [processPrediction, handleE]
  | ok ds =>
      cases q with
      | some e => cases e <;> simp [processPrediction, handleE]
      | none =>
          cases hcl : getClient s.cmw req.df.client_uuid with
          | none => simp [processPrediction, hcl]
          | some client =>
              cases w with
              | some e => cases e <;> simp [processPrediction, hcl, handleE]
              | none => simp [processPrediction, hcl]

/-- C4 counterexample: a batch of two requests where the first one's
market-data fetch exhausts its retries (`ConnectionError`).  The exception
is not a `RuntimeError`, so the grading branch's handler does not catch it
and it propagates out of `run_time_series_validation`: only one outcome is
produced and the second request of the batch never runs (first conjunct),
although that same request run on its own completes fine (second
conjunct) — contradicting the claim that a fatal fetch failure aborts only
its own workflow. -/
theorem c4_fatal_fetch_aborts_batch_counterexample :
    (run_time_series_validation "hk" state0 [itemFatal, itemTrain]).2
      = [Outcome.propagated PyExn.connection]
    ∧ (run_time_series_validation "hk" state0 [itemTrain]).2 = [Outcome.ok] := by
  refine ⟨by decide, by decide⟩

/-- C4 (amended): an exception that escapes one request's workflow — in
particular the `ConnectionError` of a fatal market-data fetch failure,
which no `except RuntimeError` handler catches — propagates out of
`run_time_series_validation` and aborts the whole remaining batch: no
subsequent request of the batch is executed. -/
theorem c4_propagation_aborts_rest (hotkey : String) (s : ValiState)
    (item : ValiItem) (rest : List ValiItem) (e : PyExn)
    (h : (processItem hotkey s item).2 = Outcome.propagated e) :
    run_time_series_validation hotkey s (item :: rest)
      = ((processItem hotkey s item).1, [Outcome.propagated e]) := by
  simp [run_time_series_validation, h]

/-- C4 witness: the amended theorem applied to the concrete two-request
batch whose first workflow hits the fatal fetch failure. -/
theorem c4_propagation_aborts_rest_witness :
    run_time_series_validation "hk" state0 [itemFatal, itemTrain]
      = ((processItem "hk" state0 itemFatal).1, [Outcome.propagated PyExn.connection]) :=
  c4_propagation_aborts_rest "hk" state0 itemFatal [itemTrain] PyExn.connection (by decide)

/-- C5: the claim says the `LiveBackward` sent while grading carries the
same `request_uuid` as the `LiveForward` that produced the persisted
record.  The code violates this: the backward message carries the grading
tick's freshly generated uuid (first conjunct) while the record stores the
forward tick's uuid (second conjunct), and the two differ (third
conjunct); the stored `request_uuid` is never read when building the
backward message. -/
theorem c5_backward_carries_fresh_uuid_code_bug :
    ((processPrediction "hk" state0 "bwd-uuid" req2 envOk).backward.map
        (fun m => m.request_uuid)) = some "bwd-uuid"
    ∧ req2.df.request_uuid = "fwd-uuid"
    ∧ ("bwd-uuid" : String) ≠ "fwd-uuid" := by
  refine ⟨by decide, by decide, by decide⟩

/-- C6: a collected response produces a persisted record exactly when it
is present and has the declared `prediction_size`: the saved records are
precisely the valid responses in order (first conjunct), so exactly K
records are persisted when K responses are valid and the other N - K are
discarded (second conjunct); the embedded loop is total, so zero valid
responses simply yields the empty list and never raises. -/
theorem c6_exactly_valid_responses_persisted
    (pairs : List (Option (List Int) × String)) (psize : Nat)
    (mk : String → List Int → PredictionDataFile) :
    processResponses pairs psize mk
      = (pairs.filter (fun p => isValidResponse p.1 psize)).map
          (fun p => mk p.2 (p.1.getD []))
    ∧ (processResponses pairs psize mk).length
      = (pairs.filter (fun p => isValidResponse p.1 psize)).length := by
  have key : processResponses pairs psize mk
      = (pairs.filter (fun p => isValidResponse p.1 psize)).map
          (fun p => mk p.2 (p.1.getD [])) := by
    induction pairs with
    | nil => rfl
    | cons hd tl ih =>
        obtain ⟨r, hk⟩ := hd
        cases r with
        | none => simpa [processResponses, isValidResponse] using ih
        | some preds =>
            by_cases hlen : preds.length = psize
            · simpa [processResponses, isValidResponse, hlen] using ih
            · simpa [processResponses, isValidResponse, hlen] using ih
  exact ⟨key, by rw [key]; simp⟩

/-- C7: at a tick (second divisible by 5) where exactly one prediction
file is pending and its target window has elapsed, the scheduler emits
exactly one PredictionRequest and neither a ClientRequest (the predictions
directory is non-empty) nor a TrainingRequest (the request list is
non-empty, so the dice roll is never consulted). -/
theorem c7_single_ready_record_tick (sec : Nat) (now : Int) (f : PendingFile)
    (dice : Nat) (h5 : sec % 5 = 0) (hdone : f.windowEnd ≤ now) :
    schedulerTick sec now [f] dice = [SchedRequest.prediction f] := by
  simp [schedulerTick, getPredictionsToComplete, h5, hdone]

/-- C7 witness: the theorem applied at second 0 to one elapsed pending
file, with an arbitrary dice roll. -/
theorem c7_single_ready_record_tick_witness :
    schedulerTick 0 100 [pendingFileW] 1 = [SchedRequest.prediction pendingFileW] :=
  c7_single_ready_record_tick 0 100 pendingFileW 1 (by decide) (by decide)

/-- C8 counterexample: at the tick with second 5 the body runs (5 is
divisible by 5), no prediction files exist and no record is ready, yet the
scheduler emits nothing at all — the ClientRequest generation is guarded
by `second % 59 == 0`, which fails — contradicting the claim that every
idle tick with no prediction files emits one ClientRequest. -/
theorem c8_idle_tick_without_client_counterexample :
    schedulerTick 5 0 [] 0 = []
    ∧ ¬ SchedRequest.client ∈ schedulerTick 5 0 [] 0 := by
  refine ⟨by decide, by decide⟩

/-- C8 (amended): at a tick (second divisible by 5) with no prediction
files, one ClientRequest is emitted exactly when the second is also
divisible by 59 (in practice second 0, once per minute); at the other
ticks no ClientRequest is emitted — the tick yields a TrainingRequest on a
dice roll of 1 and nothing otherwise. -/
theorem c8_client_requires_minute_boundary (sec : Nat) (now : Int) (dice : Nat)
    (h5 : sec % 5 = 0) :
    schedulerTick sec now [] dice
      = if sec % 59 = 0 then [SchedRequest.client]
        else if dice = 1 then [SchedRequest.training] else [] := by
  by_cases h59 : sec % 59 = 0
  · simp [schedulerTick, getPredictionsToComplete, h5, h59]
  · by_cases hd : dice = 1 <;>
      simp [schedulerTick, getPredictionsToComplete, h5, h59, hd]

/-- C8 witness: the amended theorem applied at second 0 (a minute
boundary) and at an arbitrary dice roll of 0. -/
theorem c8_client_requires_minute_boundary_witness :
    schedulerTick 0 0 [] 0
      = if 0 % 59 = 0 then [SchedRequest.client]
        else if 0 = 1 then [SchedRequest.training] else [] :=
  c8_client_requires_minute_boundary 0 0 0 (by decide)

/-- C9: the TrainingRequest branch neither reads nor mutates the durable
ledger: whatever the outcomes of its fetches and queries, the state it
returns carries the ledger it was given, unchanged. -/
theorem c9_training_branch_preserves_ledger (hotkey : String) (s : ValiState)
    (uuid : String) (d : TrainingRequestData) (env : TrainingEnv) :
    (processTraining hotkey s uuid d env).state.cmw = s.cmw := by
  obtain ⟨f, qf, fr, qb⟩ := env
  cases f <;> cases qf <;> cases fr <;> cases qb <;> rfl

/-- Replace the scaling bounds stored in a request's persisted record
(its `vmins`/`vmaxs` envelope), leaving everything else unchanged. -/
def setBounds (req : PredictionRequestData) (vm vM : List Int) :
    PredictionRequestData :=
  { req with df := { req.df with vmins := vm, vmaxs := vM } }

/-- C10: during grading, the miners are scored against the raw fetched
first feature column, not against its rescaled version: changing the
scaling bounds stored in the record changes neither the resulting state
(ledger, files), nor the committed weights, nor the outcome (first three
conjuncts) — the bounds influence nothing downstream of the `LiveBackward`
message — while the `LiveBackward` sent back to miners carries exactly the
ground truth rescaled with the record's stored bounds (last conjunct). -/
theorem c10_scoring_uses_raw_ground_truth (hotkey : String) (s : ValiState)
    (uuid : String) (req : PredictionRequestData) (env : PredEnv)
    (vm vM : List Int) (ds : List (List Int))
    (hds : env.fetched = Except.ok ds) :
    (processPrediction hotkey s uuid (setBounds req vm vM) env).state
        = (processPrediction hotkey s uuid req env).state
    ∧ (processPrediction hotkey s uuid (setBounds req vm vM) env).weightsSet
        = (processPrediction hotkey s uuid req env).weightsSet
    ∧ (processPrediction hotkey s uuid (setBounds req vm vM) env).outcome
        = (processPrediction hotkey s uuid req env).outcome
    ∧ (processPrediction hotkey s uuid req env).backward
        = some { request_uuid := uuid,
                 stream_id := pyHash (req.df.stream_type ++ hotkey),
                 samples := (scale_values (ds.headD []) (req.df.vmins.headD 0)
                     (req.df.vmaxs.headD 0)).2.2,
                 topic_id := req.df.topic_id } := by
  obtain ⟨f, q, p, w⟩ := env
  replace hds : f = Except.ok ds := hds
  subst hds
  cases q with
  | some e => exact ⟨rfl, rfl, rfl, rfl⟩
  | none =>
      cases hcl : getClient s.cmw req.df.client_uuid with
      | none => simp [processPrediction, setBounds, hcl]
      | some client =>
          cases w with
          | some e => simp [processPrediction, setBounds, hcl]
          | none => simp [processPrediction, setBounds, hcl]

/-- C10 witness: the theorem applied to the concrete two-miner grading
run, replacing the stored bounds `[0]`/`[10]` by `[5]`/`[7]`. -/
theorem c10_scoring_uses_raw_ground_truth_witness :
    (processPrediction "hk" state0 "bwd-uuid" (setBounds req2 [5] [7]) envOk).state
      = (processPrediction "hk" state0 "bwd-uuid" req2 envOk).state
    ∧ (processPrediction "hk" state0 "bwd-uuid" req2 envOk).backward
      = some { request_uuid := "bwd-uuid",
               stream_id := pyHash (req2.df.stream_type ++ "hk"),
               samples := (scale_values (dsOkFixture.headD []) (req2.df.vmins.headD 0)
                   (req2.df.vmaxs.headD 0)).2.2,
               topic_id := req2.df.topic_id } := by
  have h := c10_scoring_uses_raw_ground_truth "hk" state0 "bwd-uuid" req2 envOk
    [5] [7] dsOkFixture rfl
  exact ⟨h.1, h.2.2.2⟩
